import Mathlib

/-!
Verification of the session manager and RPC dispatch layer of the
go-client library, shallowly embedded from
`pkg/client/primitive/session.go`.  Go `uint64` counters are modelled as
`Nat`; the session mutex is modelled by giving each mutating method a
sequential state-transformer semantics (`Session → ... × Session`);
the Go `map[uint64]*Stream` registry is modelled as a list of stream
records with insertion overwriting any record of the same id (iteration
order of a Go map is unspecified, so no property below depends on the
order of the list).
-/

namespace GoClient

/-- Endpoint address (`net.Address` is a string type in the source). -/
abbrev Address := String

/-- `primitiveapi.Name`: the primitive name sent in headers (`getName`). -/
structure PrimitiveName where
  name : String
  nspace : String
  deriving DecidableEq, Repr

/-- `headers.ResponseStatus` values used by the dispatch loop. -/
inductive ResponseStatus where
  | OK
  | NOT_LEADER
  | ERROR
  deriving DecidableEq, Repr

/-- `headers.ResponseType` values used by the stream readers. -/
inductive ResponseType where
  | OPEN_STREAM
  | CLOSE_STREAM
  | RESPONSE
  deriving DecidableEq, Repr

/-- `headers.StreamHeader`: (StreamID, ResponseID), built by `Stream.getHeader`. -/
structure StreamHeader where
  streamID : Nat
  responseID : Nat
  deriving DecidableEq, Repr

/-- `headers.RequestHeader` as populated by the session's header builders. -/
structure RequestHeader where
  name : Option PrimitiveName
  partition : Int
  sessionID : Nat
  index : Nat
  requestID : Nat
  streams : List StreamHeader
  deriving DecidableEq, Repr

/-- `headers.ResponseHeader`: the fields read by the session
(`Status`, `Type`, `SessionID`, `Index`, `RequestID`, `ResponseID`, `Leader`). -/
structure ResponseHeader where
  status : ResponseStatus
  rtype : ResponseType
  sessionID : Nat
  index : Nat
  requestID : Nat
  responseID : Nat
  leader : Address
  deriving DecidableEq, Repr

/-- The per-stream record (`Stream` in the source).  The Go struct holds a
back-pointer to its session, used only by `Stream.Close` to call
`deleteStream`; the registry is kept in the `Session` here, so the record
is just (ID, responseID). -/
structure Stream where
  ID : Nat
  responseID : Nat
  deriving DecidableEq, Repr

/-- The mutable session state (`Session` in the source): partition id,
server-assigned session id, highest observed index, command counter,
acknowledged-response watermark, and the stream registry. -/
structure Session where
  Partition : Int
  SessionID : Nat
  lastIndex : Nat
  requestID : Nat
  responseID : Nat
  streams : List Stream
  deriving DecidableEq, Repr

/-- The state `NewSession` builds before `open`: Go zero values for
`SessionID`, `lastIndex`, `requestID`, `responseID` and an empty
stream map. -/
def freshSession (partition : Int) : Session :=
  { Partition := partition
    SessionID := 0
    lastIndex := 0
    requestID := 0
    responseID := 0
    streams := [] }

/-- `Stream.getHeader`: the current keepalive header for one stream. -/
def Stream.getHeader (st : Stream) : StreamHeader :=
  { streamID := st.ID, responseID := st.responseID }

/-- `Stream.Serialize`: returns whether the response is the next one in
sequence, advancing `responseID` exactly when it is. -/
def Stream.Serialize (st : Stream) (header : ResponseHeader) : Bool × Stream :=
  if header.responseID = st.responseID + 1 then
    (true, { st with responseID := st.responseID + 1 })
  else
    (false, st)

/-- Go map insertion `s.streams[id] = stream`: overwrite any existing
record with the same id, otherwise add the record. -/
def streamsInsert (l : List Stream) (st : Stream) : List Stream :=
  (l.filter fun x => x.ID ≠ st.ID) ++ [st]

/-- `Session.deleteStream`: `delete(s.streams, streamID)`. -/
def Session.deleteStream (s : Session) (streamID : Nat) : Session :=
  { s with streams := s.streams.filter fun st => st.ID ≠ streamID }

/-- `Session.getStreamHeaders`: headers of every registered stream whose
id is at most the session's `responseID`. -/
def Session.getStreamHeaders (s : Session) : List StreamHeader :=
  (s.streams.filter fun st => st.ID ≤ s.responseID).map Stream.getHeader

/-- `Session.getState`: the session-level control header; its `RequestID`
field carries `s.responseID` and it embeds the stream-header snapshot. -/
def Session.getState (s : Session) (name : Option PrimitiveName) : RequestHeader :=
  { name := name
    partition := s.Partition
    sessionID := s.SessionID
    index := s.lastIndex
    requestID := s.responseID
    streams := s.getStreamHeaders }

/-- `Session.getQueryHeader`: the read header; its `RequestID` field
carries `s.requestID` (the command counter), and no stream headers. -/
def Session.getQueryHeader (s : Session) (name : PrimitiveName) : RequestHeader :=
  { name := some name
    partition := s.Partition
    sessionID := s.SessionID
    index := s.lastIndex
    requestID := s.requestID
    streams := [] }

/-- `Session.getQueryHeader` in state-transformer form: the method takes
only the read lock and performs no writes, so the session component of
the result is the input session. -/
def Session.getQueryHeaderS (s : Session) (name : PrimitiveName) :
    RequestHeader × Session :=
  (s.getQueryHeader name, s)

/-- `Session.nextCommandHeader`: increment `requestID` and emit a header
carrying the incremented value. -/
def Session.nextCommandHeader (s : Session) (name : PrimitiveName) :
    RequestHeader × Session :=
  let s' := { s with requestID := s.requestID + 1 }
  ({ name := some name
     partition := s.Partition
     sessionID := s.SessionID
     index := s.lastIndex
     requestID := s'.requestID
     streams := [] }, s')

/-- `Session.nextStreamHeader`: increment `requestID`, register a fresh
stream record keyed by the new id (Go zero value `responseID = 0`), and
emit a header carrying the new id. -/
def Session.nextStreamHeader (s : Session) (name : PrimitiveName) :
    (Stream × RequestHeader) × Session :=
  let rid := s.requestID + 1
  let stream : Stream := { ID := rid, responseID := 0 }
  let s' := { s with requestID := rid, streams := streamsInsert s.streams stream }
  ((stream,
    { name := some name
      partition := s.Partition
      sessionID := s.SessionID
      index := s.lastIndex
      requestID := rid
      streams := [] }), s')

/-- `Session.recordResponse`: sequential semantics of the double-checked
lock.  The whole update is guarded by `responseHeader.Index > s.lastIndex`;
inside the write lock the session id is initialized, the response
watermark advanced, and the last index advanced, each behind its own
comparison, exactly as in the source. -/
def Session.recordResponse (rq : RequestHeader) (rh : ResponseHeader)
    (s : Session) : Session :=
  if rh.index > s.lastIndex then
    let s1 :=
      if rh.sessionID > s.SessionID then
        { s with SessionID := rh.sessionID, lastIndex := rh.sessionID }
      else s
    let s2 :=
      if rq.requestID > s1.responseID then
        { s1 with responseID := rq.requestID }
      else s1
    if rh.index > s2.lastIndex then
      { s2 with lastIndex := rh.index }
    else s2
  else s

/-- What one iteration of the `doRequest` loop observes from the
environment: the pool's `Connect` fails, the RPC closure returns a
non-nil error, or a response header comes back. -/
inductive AttemptOutcome where
  | connectFailure
  | rpcError
  | reply (h : ResponseHeader)
  deriving DecidableEq, Repr

/-- How a `doRequest` dispatch ends. -/
inductive DispatchOutcome where
  | success (h : ResponseHeader)
  | connectError
  | serverError
  deriving DecidableEq, Repr

/-- Observable trace of a `doRequest` dispatch: the request header passed
to the RPC closure on each attempt, the addresses handed to
`conns.Reconnect`, the session after the dispatch, and the outcome
(`none` when the environment script ran out while the loop was still
retrying). -/
structure DispatchTrace where
  sent : List RequestHeader
  reconnects : List Address
  finalSession : Session
  outcome : Option DispatchOutcome
  deriving DecidableEq, Repr

/-- `Session.doRequest`: the dispatch loop, driven by a finite script of
environment outcomes, one per iteration.  `Connect` errors return
immediately; RPC errors retry with the same header; OK records the
response and returns it; NOT_LEADER reconnects to the leader in the
response header and retries with the same header; ERROR returns a
generic error without touching the session. -/
def Session.doRequest (rq : RequestHeader) (s : Session) :
    List AttemptOutcome → DispatchTrace
  | [] => ⟨[], [], s, none⟩
  | .connectFailure :: _ => ⟨[], [], s, some .connectError⟩
  | .rpcError :: rest =>
      let t := Session.doRequest rq s rest
      ⟨rq :: t.sent, t.reconnects, t.finalSession, t.outcome⟩
  | .reply h :: rest =>
      match h.status with
      | .OK => ⟨[rq], [], s.recordResponse rq h, some (.success h)⟩
      | .NOT_LEADER =>
          let t := Session.doRequest rq s rest
          ⟨rq :: t.sent, h.leader :: t.reconnects, t.finalSession, t.outcome⟩
      | .ERROR => ⟨[rq], [], s, some .serverError⟩

/-- The reader loop of `Session.commandStream`, restricted to a finite
list of incoming response headers.  For each header: OPEN_STREAM is
gated by `Serialize`; CLOSE_STREAM terminates the reader when
`Serialize` accepts it; a RESPONSE with status OK is recorded via
`recordResponse`, then forwarded to the user channel only when
`Serialize` accepts it; NOT_LEADER hands over to a new reader and
ERROR closes the channel, both ending this reader.  The result is the
session, the stream record, and the headers forwarded to the channel,
in order. -/
def Session.commandStreamPump (rq : RequestHeader) :
    Session → Stream → List ResponseHeader →
    Session × Stream × List ResponseHeader
  | s, st, [] => (s, st, [])
  | s, st, h :: rest =>
    match h.rtype with
    | .OPEN_STREAM =>
        let (_, st') := st.Serialize h
        Session.commandStreamPump rq s st' rest
    | .CLOSE_STREAM =>
        let (ok, st') := st.Serialize h
        if ok then (s, st', [])
        else Session.commandStreamPump rq s st' rest
    | .RESPONSE =>
        match h.status with
        | .OK =>
            let s' := s.recordResponse rq h
            let (ok, st') := st.Serialize h
            let (s'', st'', out) := Session.commandStreamPump rq s' st' rest
            if ok then (s'', st'', h :: out) else (s'', st'', out)
        | .NOT_LEADER => (s, st, [])
        | .ERROR => (s, st, [])

/-- Emit `k` consecutive command headers (`nextCommandHeader`), returning
the final session and the list of emitted `RequestID`s in order. -/
def Session.commandIds (name : PrimitiveName) :
    Session → Nat → Session × List Nat
  | s, 0 => (s, [])
  | s, k + 1 =>
      let (h, s') := s.nextCommandHeader name
      let (s'', ids) := Session.commandIds name s' k
      (s'', h.requestID :: ids)

/-- A server RESPONSE/OK stream message carrying the given per-stream
sequence number (scenario constructor for the reader loop). -/
def okStreamResponse (rid : Nat) : ResponseHeader :=
  { status := .OK, rtype := .RESPONSE, sessionID := 0, index := 0,
    requestID := 0, responseID := rid, leader := "" }

/-- A server OK response header with the given metadata. -/
def okResponse (sid idx rid respid : Nat) : ResponseHeader :=
  { status := .OK, rtype := .RESPONSE, sessionID := sid, index := idx,
    requestID := rid, responseID := respid, leader := "" }

/-- A NOT_LEADER response header redirecting to address `a`. -/
def notLeaderResponse (a : Address) : ResponseHeader :=
  { status := .NOT_LEADER, rtype := .RESPONSE, sessionID := 0, index := 0,
    requestID := 0, responseID := 0, leader := a }

/-! ## Helper lemmas -/

/-- `recordResponse` never writes the command counter. -/
lemma recordResponse_requestID (rq : RequestHeader) (rh : ResponseHeader)
    (s : Session) :
    (s.recordResponse rq rh).requestID = s.requestID := by
  simp only [Session.recordResponse]
  split_ifs <;> rfl

/-- One `recordResponse` call never lowers `lastIndex`: the whole update
runs only when the response index exceeds it, and the session-id
initialization is followed by the index comparison. -/
lemma recordResponse_lastIndex_le (rq : RequestHeader) (rh : ResponseHeader)
    (s : Session) :
    s.lastIndex ≤ (s.recordResponse rq rh).lastIndex := by
  simp only [Session.recordResponse]
  split_ifs <;> simp_all <;> omega

/-- The dispatch loop touches the session only through `recordResponse`,
so the command counter survives any dispatch. -/
lemma doRequest_requestID (rq : RequestHeader) (s : Session)
    (script : List AttemptOutcome) :
    (Session.doRequest rq s script).finalSession.requestID = s.requestID := by
  induction script generalizing s with
  | nil => rfl
  | cons o rest ih =>
    cases o with
    | connectFailure => rfl
    | rpcError => simpa [Session.doRequest] using ih s
    | reply h =>
      rcases h with ⟨st, ty, sid, idx, rid, respid, ldr⟩
      cases st with
      | OK => simpa [Session.doRequest] using recordResponse_requestID _ _ s
      | NOT_LEADER => simpa [Session.doRequest] using ih s
      | ERROR => rfl

/-- Every header the dispatch loop hands to the RPC closure is the one
request header it was given. -/
lemma doRequest_sent_const (rq : RequestHeader) (s : Session)
    (script : List AttemptOutcome) :
    ∃ n, (Session.doRequest rq s script).sent = List.replicate n rq := by
  induction script generalizing s with
  | nil => exact ⟨0, rfl⟩
  | cons o rest ih =>
    cases o with
    | connectFailure => exact ⟨0, rfl⟩
    | rpcError =>
      obtain ⟨n, hn⟩ := ih s
      exact ⟨n + 1, by simp [Session.doRequest, hn, List.replicate_succ]⟩
    | reply h =>
      rcases h with ⟨st, ty, sid, idx, rid, respid, ldr⟩
      cases st with
      | OK => exact ⟨1, rfl⟩
      | NOT_LEADER =>
        obtain ⟨n, hn⟩ := ih s
        exact ⟨n + 1, by simp [Session.doRequest, hn, List.replicate_succ]⟩
      | ERROR => exact ⟨1, rfl⟩

/-- Restatement of `doRequest_sent_const` with the length made explicit. -/
lemma doRequest_sent_replicate (rq : RequestHeader) (s : Session)
    (script : List AttemptOutcome) :
    (Session.doRequest rq s script).sent =
      List.replicate (Session.doRequest rq s script).sent.length rq := by
  obtain ⟨n, hn⟩ := doRequest_sent_const rq s script
  rw [hn, List.length_replicate]

/-- The ids emitted by `k` consecutive command headers are the `k`
consecutive naturals starting right above the session's counter. -/
lemma commandIds_snd (nm : PrimitiveName) (s : Session) (k : Nat) :
    (Session.commandIds nm s k).2 = List.range' (s.requestID + 1) k := by
  induction k generalizing s with
  | zero => rfl
  | succ k ih =>
    simp [Session.commandIds, Session.nextCommandHeader, ih, List.range'_succ]

/-! ## Claim theorems -/

/-- Claim C1, counterexample: `recordResponse` does NOT update
`responseID` regardless of the response index.  With `lastIndex = 5`,
`responseID = 0`, an OK response whose index is 3 and a request header
with `requestID = 1 > 0`, the watermark stays 0 instead of becoming 1,
because the double-checked index guard skips the whole update. -/
theorem C1_counterexample :
    let s0 : Session :=
      { Partition := 1, SessionID := 1, lastIndex := 5, requestID := 1,
        responseID := 0, streams := [] }
    let rq0 : RequestHeader :=
      { name := none, partition := 1, sessionID := 1, index := 5,
        requestID := 1, streams := [] }
    let rh0 : ResponseHeader :=
      { status := .OK, rtype := .RESPONSE, sessionID := 1, index := 3,
        requestID := 1, responseID := 0, leader := "" }
    rq0.requestID > s0.responseID ∧ rh0.status = .OK ∧
      (s0.recordResponse rq0 rh0).responseID ≠ rq0.requestID := by
  decide

/-- Claim C1 (amended): `recordResponse` sets
`responseID := requestHeader.requestID` exactly when the response index
exceeds the session's `lastIndex` (the double-checked guard) AND the
request id exceeds the current watermark; in every other case the
watermark is left unchanged. -/
theorem C1_responseID_guarded (rq : RequestHeader) (rh : ResponseHeader)
    (s : Session) :
    (s.recordResponse rq rh).responseID =
      if rh.index > s.lastIndex ∧ rq.requestID > s.responseID then rq.requestID
      else s.responseID := by
  simp only [Session.recordResponse]
  split_ifs <;> simp_all

/-- Claim C2, counterexample: the query header's `requestID` field does
NOT carry the session's `responseID` watermark.  With `requestID = 2`
and `responseID = 1` the emitted field is 2. -/
theorem C2_counterexample :
    let s0 : Session :=
      { Partition := 1, SessionID := 1, lastIndex := 5, requestID := 2,
        responseID := 1, streams := [] }
    let nm : PrimitiveName := { name := "counter", nspace := "default" }
    (s0.getQueryHeader nm).requestID ≠ s0.responseID := by
  decide

/-- Claim C2 (amended): the query header construction emits
(name, partition, session_id, last_index, request_id): its `requestID`
field carries the session's command counter `requestID`, not the
`responseID` watermark, and it carries no stream headers. -/
theorem C2_query_header_fields (s : Session) (nm : PrimitiveName) :
    (s.getQueryHeader nm).name = some nm ∧
    (s.getQueryHeader nm).partition = s.Partition ∧
    (s.getQueryHeader nm).sessionID = s.SessionID ∧
    (s.getQueryHeader nm).index = s.lastIndex ∧
    (s.getQueryHeader nm).requestID = s.requestID ∧
    (s.getQueryHeader nm).streams = [] :=
  ⟨rfl, rfl, rfl, rfl, rfl, rfl⟩

/-- Claim C3: `Serialize` returns true and advances `responseID` by one
exactly when the header's id is the successor of the stream's
`responseID`, leaving the record unchanged otherwise; and the command
stream reader, fed server stream ids (1, 3, 2, 4) on a fresh stream
record, forwards exactly the responses with ids 1 and 2, in that
order. -/
theorem C3_serialize_gating (st : Stream) (h : ResponseHeader)
    (rq : RequestHeader) (s : Session) (streamId : Nat) :
    ((st.Serialize h).1 = true ↔ h.responseID = st.responseID + 1) ∧
    (st.Serialize h).2.responseID =
      (if h.responseID = st.responseID + 1 then st.responseID + 1
       else st.responseID) ∧
    (st.Serialize h).2.ID = st.ID ∧
    (Session.commandStreamPump rq s { ID := streamId, responseID := 0 }
        ([1, 3, 2, 4].map okStreamResponse)).2.2.map ResponseHeader.responseID
      = [1, 2] := by
  refine ⟨?_, ?_, ?_, ?_⟩
  · unfold Stream.Serialize; split_ifs <;> simp_all
  · unfold Stream.Serialize; split_ifs <;> simp_all
  · unfold Stream.Serialize; split_ifs <;> simp_all
  · simp [Session.commandStreamPump, Stream.Serialize, okStreamResponse]

/-- Claim C4: every attempt of a dispatch passes the identical request
header to the RPC closure (hence the same `requestID`); and on a
NOT_LEADER reply the loop reconnects to exactly the leader address of
the response header and retries with the same header, succeeding on the
following OK. -/
theorem C4_not_leader_retry (rq : RequestHeader) (s : Session)
    (script : List AttemptOutcome) (a : Address) (sid idx rid respid : Nat) :
    (Session.doRequest rq s script).sent =
      List.replicate (Session.doRequest rq s script).sent.length rq ∧
    Session.doRequest rq s
        [.reply (notLeaderResponse a), .reply (okResponse sid idx rid respid)] =
      ⟨[rq, rq], [a], s.recordResponse rq (okResponse sid idx rid respid),
        some (.success (okResponse sid idx rid respid))⟩ :=
  ⟨doRequest_sent_replicate rq s script, rfl⟩

/-- Claim C5: a keepalive state header's stream snapshot holds exactly
the headers of registered streams whose id is at most the session's
`responseID`, each carrying that stream's (id, responseID). -/
theorem C5_keepalive_snapshot (s : Session) (nm : Option PrimitiveName)
    (h : StreamHeader) :
    h ∈ (s.getState nm).streams ↔
      ∃ st, st ∈ s.streams ∧ st.ID ≤ s.responseID ∧
        h = { streamID := st.ID, responseID := st.responseID } := by
  simp [Session.getState, Session.getStreamHeaders, Stream.getHeader,
    List.mem_filter, eq_comm, and_assoc]

/-- Claim C6: `lastIndex` never decreases across any sequence of
`recordResponse` calls, the session-id initialization case included. -/
theorem C6_lastIndex_monotone (s : Session)
    (calls : List (RequestHeader × ResponseHeader)) :
    s.lastIndex ≤
      (calls.foldl (fun t c => t.recordResponse c.1 c.2) s).lastIndex := by
  induction calls generalizing s with
  | nil => simp
  | cons c rest ih =>
    exact le_trans (recordResponse_lastIndex_le c.1 c.2 s) (ih _)

/-- Claim C7: command and command-stream header construction increment
`requestID` by exactly one and emit (and, for streams, register) the
incremented value; `recordResponse`, query-header construction and a
whole state-header dispatch (keepalive) leave `requestID` unchanged; and
the ids emitted by `k` commands from a fresh session are exactly
1, 2, …, k. -/
theorem C7_request_id_sequencing (s : Session) (nm : PrimitiveName)
    (rq : RequestHeader) (rh : ResponseHeader) (nm' : Option PrimitiveName)
    (script : List AttemptOutcome) (p : Int) (k : Nat) :
    (s.nextCommandHeader nm).1.requestID = s.requestID + 1 ∧
    (s.nextCommandHeader nm).2.requestID = s.requestID + 1 ∧
    (s.nextStreamHeader nm).1.2.requestID = s.requestID + 1 ∧
    (s.nextStreamHeader nm).1.1.ID = s.requestID + 1 ∧
    (s.nextStreamHeader nm).2.requestID = s.requestID + 1 ∧
    (s.recordResponse rq rh).requestID = s.requestID ∧
    (s.getQueryHeaderS nm).2.requestID = s.requestID ∧
    (Session.doRequest (s.getState nm') s script).finalSession.requestID
      = s.requestID ∧
    (Session.commandIds nm (freshSession p) k).2 = List.range' 1 k :=
  ⟨rfl, rfl, rfl, rfl, rfl, recordResponse_requestID rq rh s, rfl,
    doRequest_requestID _ s script,
    by simpa using commandIds_snd nm (freshSession p) k⟩

/-- Claim C8: a reply with status ERROR ends the dispatch at once: the
closure was invoked exactly once, no reconnect happened, the error is
returned, and the session is returned exactly as it was — in particular
`recordResponse` never ran on that response. -/
theorem C8_error_no_retry (rq : RequestHeader) (s : Session)
    (h : ResponseHeader) (rest : List AttemptOutcome)
    (hs : h.status = .ERROR) :
    Session.doRequest rq s (.reply h :: rest) =
      ⟨[rq], [], s, some .serverError⟩ := by
  rcases h with ⟨st, ty, sid, idx, rid, respid, ldr⟩
  cases st <;> simp_all [Session.doRequest]

/-- Witness for claim C8 at a concrete request header, session and ERROR
reply. -/
theorem C8_error_no_retry_witness :
    Session.doRequest
        { name := none, partition := 1, sessionID := 1, index := 2,
          requestID := 3, streams := [] }
        (freshSession 1)
        [.reply { status := .ERROR, rtype := .RESPONSE, sessionID := 0,
                  index := 0, requestID := 0, responseID := 0, leader := "" }] =
      ⟨[{ name := none, partition := 1, sessionID := 1, index := 2,
          requestID := 3, streams := [] }], [], freshSession 1,
        some .serverError⟩ :=
  C8_error_no_retry _ (freshSession 1) _ [] rfl

/-- Claim C10: constructing a query header leaves every session field
unchanged — the method takes only the read lock and writes nothing — and
a whole query dispatch never consumes a `requestID`. -/
theorem C10_query_frame (s : Session) (nm : PrimitiveName)
    (script : List AttemptOutcome) :
    (s.getQueryHeaderS nm).2 = s ∧
    (Session.doRequest (s.getQueryHeader nm) s script).finalSession.requestID
      = s.requestID :=
  ⟨rfl, doRequest_requestID _ s script⟩

end GoClient
